import Mathlib

/-!
Verification of the Grammarly browser-use MCP server core against its
natural-language specification.

The development shallowly embeds the TypeScript sources:
  - thresholdsMet and runGrammarlyOptimization (optimization control loop),
  - attemptGrammarlyLogin and detectLoginFailure (login state machine),
as pure Lean functions.  External collaborators (browser pages, the
automation agent, the scoring task, the rewrite service) are modelled as
oracle functions supplied through environment records; the embedded control
flow is translated statement by statement from the source.  Stateful
browser interaction is recorded as an explicit event trace so that
call-order and call-content properties can be stated.
-/

/-- Scores extracted from Grammarly, as in GrammarlyScoresSchema:
aiDetectionPercent and plagiarismPercent are nullable numbers in [0, 100]
(null meaning the feature was unavailable), notes is free text. -/
structure GrammarlyScores where
  aiDetectionPercent : Option Rat
  plagiarismPercent : Option Rat
  notes : String
deriving DecidableEq

/-- Embedding of thresholdsMet from the tool orchestration module: false when
both percent fields are null; otherwise each non-null field must be at or
below its configured maximum. -/
def thresholdsMet (scores : GrammarlyScores)
    (maxAiPercent maxPlagiarismPercent : Rat) : Bool :=
  let aiUnavailable := scores.aiDetectionPercent.isNone
  let plagiarismUnavailable := scores.plagiarismPercent.isNone
  if aiUnavailable && plagiarismUnavailable then
    false
  else
    let aiOk :=
      match scores.aiDetectionPercent with
      | none => true
      | some v => decide (v ≤ maxAiPercent)
    let plagiarismOk :=
      match scores.plagiarismPercent with
      | none => true
      | some v => decide (v ≤ maxPlagiarismPercent)
    aiOk && plagiarismOk

/-- History entry recorded by the optimization loop; iteration 0 is the
baseline. -/
structure HistoryEntry where
  iteration : Nat
  ai_detection_percent : Option Rat
  plagiarism_percent : Option Rat
  note : String
deriving DecidableEq

/-- Result shape of runGrammarlyOptimization (snake_case tool boundary). -/
structure GrammarlyOptimizeResult where
  final_text : String
  ai_detection_percent : Option Rat
  plagiarism_percent : Option Rat
  iterations_used : Nat
  thresholds_met : Bool
  history : List HistoryEntry
  notes : String
deriving DecidableEq

/-- The three tool modes. -/
inductive GrammarlyOptimizeMode where
  | score_only
  | optimize
  | analyze
deriving DecidableEq

/-- Tool input after schema validation. -/
structure GrammarlyOptimizeInput where
  text : String
  mode : GrammarlyOptimizeMode
  max_ai_percent : Rat
  max_plagiarism_percent : Rat
  max_iterations : Nat
deriving DecidableEq

/-- Oracle environment for the optimization loop.  iterScores i is the result
of the i-th runGrammarlyScoreTask call (i = 0 is the baseline on the original
text, i >= 1 the re-score of iteration i); rewrittenText i and
rewriteReasoning i are the rewrite service answers for iteration i;
analysisNotes and summaryNotes are the analyze / summarize narratives. -/
structure OptimizationEnv where
  iterScores : Nat → GrammarlyScores
  rewrittenText : Nat → String
  rewriteReasoning : Nat → String
  analysisNotes : String
  summaryNotes : String

/-- Mutable state of the optimize-mode loop. -/
structure LoopState where
  currentText : String
  lastScores : GrammarlyScores
  iterationsUsed : Nat
  reachedThresholds : Bool
  history : List HistoryEntry

/-- One-to-one embedding of the body of the optimize-mode for loop: rewrite,
re-score, record history, stop early when thresholds are met.  fuel counts the
remaining loop iterations, iteration the current index. -/
def optimizeFrom (env : OptimizationEnv) (maxAi maxPlagiarism : Rat) :
    Nat → Nat → LoopState → LoopState
  | _, 0, st => st
  | iteration, fuel + 1, st =>
    let newText := env.rewrittenText iteration
    let newScores := env.iterScores iteration
    let reached := thresholdsMet newScores maxAi maxPlagiarism
    let st' : LoopState :=
      { currentText := newText
        lastScores := newScores
        iterationsUsed := iteration
        reachedThresholds := reached
        history := st.history ++
          [{ iteration := iteration
             ai_detection_percent := newScores.aiDetectionPercent
             plagiarism_percent := newScores.plagiarismPercent
             note := env.rewriteReasoning iteration }] }
    if reached then st'
    else optimizeFrom env maxAi maxPlagiarism (iteration + 1) fuel st'

/-- Embedding of runGrammarlyOptimization over the oracle environment,
covering the three modes after the baseline scoring pass. -/
def runGrammarlyOptimization (env : OptimizationEnv)
    (input : GrammarlyOptimizeInput) : GrammarlyOptimizeResult :=
  let maxAi := input.max_ai_percent
  let maxPlagiarism := input.max_plagiarism_percent
  let baseline := env.iterScores 0
  let baselineHistory : List HistoryEntry :=
    [{ iteration := 0
       ai_detection_percent := baseline.aiDetectionPercent
       plagiarism_percent := baseline.plagiarismPercent
       note := "Baseline Grammarly scores on original text (iteration 0)." }]
  match input.mode with
  | GrammarlyOptimizeMode.score_only =>
    let reached := thresholdsMet baseline maxAi maxPlagiarism
    { final_text := input.text
      ai_detection_percent := baseline.aiDetectionPercent
      plagiarism_percent := baseline.plagiarismPercent
      iterations_used := 0
      thresholds_met := reached
      history := baselineHistory
      notes :=
        if reached then
          "Score-only run: original text already meets configured AI and plagiarism thresholds."
        else
          "Score-only run: thresholds not met or scores unavailable; no rewriting performed." }
  | GrammarlyOptimizeMode.analyze =>
    let reached := thresholdsMet baseline maxAi maxPlagiarism
    { final_text := input.text
      ai_detection_percent := baseline.aiDetectionPercent
      plagiarism_percent := baseline.plagiarismPercent
      iterations_used := 0
      thresholds_met := reached
      history := baselineHistory
      notes := env.analysisNotes }
  | GrammarlyOptimizeMode.optimize =>
    let finalState :=
      optimizeFrom env maxAi maxPlagiarism 1 input.max_iterations
        { currentText := input.text
          lastScores := baseline
          iterationsUsed := 0
          reachedThresholds := false
          history := baselineHistory }
    { final_text := finalState.currentText
      ai_detection_percent := finalState.lastScores.aiDetectionPercent
      plagiarism_percent := finalState.lastScores.plagiarismPercent
      iterations_used := finalState.iterationsUsed
      thresholds_met := finalState.reachedThresholds
      history := finalState.history
      notes := env.summaryNotes }

/-- JavaScript try/finally semantics: if the finally block completes normally
the try outcome stands; if the finally block itself throws, its error replaces
the outcome. -/
def jsTryFinally {R : Type} (main : Except String R)
    (fin : Except String Unit) : Except String R :=
  match fin with
  | Except.ok _ => main
  | Except.error e => Except.error e

/-- Embedding of the teardown block of runGrammarlyOptimization: when a
session exists, deleteSession is called inside its own try/catch, so a
teardown failure is only logged and the block always completes normally. -/
def closeSessionBlock (sessionId : Option String)
    (deleteSession : String → Except String Unit) : Except String Unit :=
  match sessionId with
  | none => Except.ok ()
  | some sid =>
    match deleteSession sid with
    | Except.ok _ => Except.ok ()
    | Except.error _ => Except.ok ()

/-- The whole-function shape of runGrammarlyOptimization: a main flow outcome
(result or thrown error) wrapped in try/finally with the teardown block. -/
def runOptimizationWithTeardown (mainOutcome : Except String GrammarlyOptimizeResult)
    (sessionId : Option String)
    (deleteSession : String → Except String Unit) :
    Except String GrammarlyOptimizeResult :=
  jsTryFinally mainOutcome (closeSessionBlock sessionId deleteSession)

/-- Lowercase a string character by character (model of toLowerCase for the
ASCII keywords the failure classifier matches on). -/
def lowerStr (s : String) : String :=
  String.mk (s.data.map Char.toLower)

/-- Substring test: needle occurs contiguously inside hay. -/
def containsSub (hay needle : List Char) : Bool :=
  (List.range (hay.length + 1)).any
    (fun i => decide ((hay.drop i).take needle.length = needle))

/-- String form of the substring test (model of String.prototype.includes). -/
def strContains (hay needle : String) : Bool :=
  containsSub hay.toList needle.toList

/-- Result of an automation observe call, as used by the login flow. -/
structure ObservedElement where
  description : String
deriving DecidableEq

/-- Auth status returned by checkGrammarlyAuthStatus. -/
structure AuthStatus where
  loggedIn : Bool
  currentUrl : String
deriving DecidableEq

/-- Result shape of attemptGrammarlyLogin.  The optional TypeScript booleans
are modelled as Bool with default false. -/
structure LoginAttemptResult where
  success : Bool
  error : Option String := none
  invalidCredentials : Bool := false
  captchaDetected : Bool := false
  rateLimited : Bool := false
deriving DecidableEq

/-- Partial LoginAttemptResult produced by detectLoginFailure. -/
structure DetectedFailure where
  error : Option String := none
  invalidCredentials : Bool := false
  captchaDetected : Bool := false
  rateLimited : Bool := false
deriving DecidableEq

/-- Username/password pair from the secrets collaborator. -/
structure GrammarlyCredentials where
  username : String
  password : String
deriving DecidableEq

/-- Events recorded while interpreting the login flow: page navigations,
observe queries, act calls (on an observed element or on a natural-language
instruction string), direct locator fills, and auth-status verifications. -/
inductive LoginEvent where
  | goto (url : String)
  | observe (query : String)
  | actElement (el : ObservedElement)
  | actInstruction (instr : String)
  | locatorFill (selector : String) (value : String)
  | authCheck
deriving DecidableEq

/-- Outcome of one per-selector step of the email-fill loop: the try/catch
around isVisible and fill swallows throws and moves to the next selector. -/
inductive SelectorStep where
  | throws
  | notVisible
  | fillOk
  | fillThrows
deriving DecidableEq

/-- Oracle environment for attemptGrammarlyLogin.  Every collaborator call is
a function of the attempt index (attempt 0 is the first try); Except.error
models a thrown exception. -/
structure LoginEnv where
  hasPage : Bool
  urlAt : Nat → String
  gotoOutcome : Nat → Except String Unit
  emailButtonObserve : Nat → Except String (List ObservedElement)
  emailButtonActOutcome : Nat → Except String Unit
  emailFieldObserve : Nat → Except String (List ObservedElement)
  emailSelectorOutcome : Nat → Nat → SelectorStep
  emailFallbackActOutcome : Nat → Except String Unit
  continueActOutcome : Nat → Except String Unit
  passwordObserve : Nat → Except String (List ObservedElement)
  passwordFillOutcome : Nat → Except String Unit
  submitActOutcome : Nat → Except String Unit
  authStatus : Nat → Except String AuthStatus
  failureObserve : Nat → Except String (List ObservedElement)

/-- Trace-and-exception computation: accumulated events together with a
normal value or a thrown error message. -/
def Step (α : Type) : Type :=
  List LoginEvent × Except String α

/-- Return a value with no events. -/
def stepPure {α : Type} (a : α) : Step α :=
  ([], Except.ok a)

/-- Record one event. -/
def stepEmit (e : LoginEvent) : Step Unit :=
  ([e], Except.ok ())

/-- Lift a collaborator outcome (no events of its own). -/
def stepOf {α : Type} (x : Except String α) : Step α :=
  ([], x)

/-- Sequencing: on a thrown error the continuation is skipped, mirroring
exception propagation to the surrounding catch. -/
def stepBind {α β : Type} (s : Step α) (f : α → Step β) : Step β :=
  match s.2 with
  | Except.error e => (s.1, Except.error e)
  | Except.ok a => (s.1 ++ (f a).1, (f a).2)

/-- The fixed natural-language act instruction used as email-fill fallback. -/
def emailFallbackInstruction : String :=
  "Click on the email input field and type the email"

/-- The fixed natural-language act instruction submitting the email step. -/
def continueInstruction : String :=
  "Click the \x27Continue\x27 or \x27Next\x27 button to proceed after entering email"

/-- The fixed natural-language act instruction submitting the login form. -/
def submitInstruction : String :=
  "Click the \x27Log in\x27, \x27Sign in\x27, or submit button to complete login"

/-- Observe query for the optional log-in-with-email pre-step. -/
def emailButtonQuery : String :=
  "Find the \x27Log in with email\x27 button or \x27Continue with email\x27 option"

/-- Observe query for the email input field. -/
def emailFieldQuery : String :=
  "Find the email or username input field for logging into Grammarly"

/-- Observe query for the password input field. -/
def passwordFieldQuery : String :=
  "Find the password input field"

/-- Observe query issued by detectLoginFailure. -/
def failureQuery : String :=
  "Find any error messages about invalid credentials, wrong password, account locked, CAPTCHA challenges, rate limits, or \x27too many attempts\x27 warnings"

/-- The ordered structural selectors tried for the email input. -/
def emailSelectors : List String :=
  ["input[type=\"email\"]", "input[type=\"text\"]",
   "input[name*=\"email\"]", "input[name*=\"username\"]"]

/-- The single structural selector used for the password input. -/
def passwordSelector : String :=
  "input[type=\"password\"]"

/-- Navigation is performed unless the current URL already is a Grammarly
signin or login page. -/
def needsNavigation (url : String) : Bool :=
  !(strContains url "grammarly.com/signin") &&
    !(strContains url "grammarly.com/login")

/-- Keyword classifier of detectLoginFailure over the concatenated lowercase
descriptions, in fixed priority order: CAPTCHA, then rate limit, then invalid
credentials, else a generic login error. -/
def classifyErrorText (errorText : String) : DetectedFailure :=
  if strContains errorText "captcha" || strContains errorText "verify" ||
      strContains errorText "robot" || strContains errorText "not a robot" then
    { captchaDetected := true, error := some "CAPTCHA challenge detected" }
  else if strContains errorText "too many" || strContains errorText "rate" ||
      strContains errorText "try again later" ||
      strContains errorText "temporarily blocked" then
    { rateLimited := true, error := some "Rate limit triggered" }
  else if strContains errorText "invalid" || strContains errorText "incorrect" ||
      strContains errorText "wrong" || strContains errorText "not found" ||
      strContains errorText "doesn\x27t match" then
    { invalidCredentials := true, error := some "Invalid credentials" }
  else
    { error := some "Login error detected" }

/-- Embedding of detectLoginFailure: one observe query; a throw or an empty
result yields no classification; otherwise the keyword classifier runs on the
joined lowercase descriptions.  Never throws. -/
def detectLoginFailure (env : LoginEnv) (attempt : Nat) :
    List LoginEvent × DetectedFailure :=
  if env.hasPage then
    match env.failureObserve attempt with
    | Except.error _ => ([LoginEvent.observe failureQuery], {})
    | Except.ok [] => ([LoginEvent.observe failureQuery], {})
    | Except.ok els =>
      let errorText :=
        String.intercalate " " (els.map (fun e => lowerStr e.description))
      ([LoginEvent.observe failureQuery], classifyErrorText errorText)
  else
    ([], {})

/-- detectLoginFailure lifted into the trace monad. -/
def detectStep (env : LoginEnv) (attempt : Nat) : Step DetectedFailure :=
  ((detectLoginFailure env attempt).1,
    Except.ok (detectLoginFailure env attempt).2)

/-- Spread of a DetectedFailure into a failed LoginAttemptResult, mirroring
the object spread in the source returns. -/
def mkFailureResult (f : DetectedFailure) : LoginAttemptResult :=
  { success := false
    error := f.error
    invalidCredentials := f.invalidCredentials
    captchaDetected := f.captchaDetected
    rateLimited := f.rateLimited }

/-- Outcome of the pre-submission half of an attempt: either the function
returned early (password field missing) or the flow proceeds to verification. -/
inductive PreOutcome where
  | returned (r : LoginAttemptResult)
  | proceed
deriving DecidableEq

/-- Outcome of a whole attempt body: an early return carrying the final
result, or an unclassified post-verification failure eligible for retry. -/
inductive AttemptStep where
  | returned (r : LoginAttemptResult)
  | authFailedRetryable
deriving DecidableEq

/-- Step 1 of an attempt: navigate to the signin page unless already on a
login-family URL. -/
def navStep (env : LoginEnv) (attempt : Nat) : Step Unit :=
  if needsNavigation (env.urlAt attempt) then
    stepBind (stepEmit (LoginEvent.goto "https://www.grammarly.com/signin"))
      (fun _ => stepOf (env.gotoOutcome attempt))
  else
    stepPure ()

/-- Step 2: observe the optional log-in-with-email button and act on the
first observed element when present. -/
def emailButtonStep (env : LoginEnv) (attempt : Nat) : Step Unit :=
  stepBind (stepEmit (LoginEvent.observe emailButtonQuery)) (fun _ =>
    stepBind (stepOf (env.emailButtonObserve attempt)) (fun l =>
      match l.head? with
      | some el =>
        stepBind (stepEmit (LoginEvent.actElement el))
          (fun _ => stepOf (env.emailButtonActOutcome attempt))
      | none => stepPure ()))

/-- Step 3a: observe the email field (the observation result is unused). -/
def emailFieldObserveStep (env : LoginEnv) (attempt : Nat) : Step Unit :=
  stepBind (stepEmit (LoginEvent.observe emailFieldQuery)) (fun _ =>
    stepBind (stepOf (env.emailFieldObserve attempt)) (fun _ => stepPure ()))

/-- Step 3b: try the ordered email selectors; a visible match is filled with
the username directly; per-selector throws are swallowed.  Returns whether a
fill succeeded. -/
def emailFillLoop (env : LoginEnv) (credentials : GrammarlyCredentials)
    (attempt : Nat) : Nat → List String → Step Bool
  | _, [] => stepPure false
  | idx, sel :: rest =>
    match env.emailSelectorOutcome attempt idx with
    | SelectorStep.throws => emailFillLoop env credentials attempt (idx + 1) rest
    | SelectorStep.notVisible => emailFillLoop env credentials attempt (idx + 1) rest
    | SelectorStep.fillOk =>
      stepBind (stepEmit (LoginEvent.locatorFill sel credentials.username))
        (fun _ => stepPure true)
    | SelectorStep.fillThrows =>
      stepBind (stepEmit (LoginEvent.locatorFill sel credentials.username))
        (fun _ => emailFillLoop env credentials attempt (idx + 1) rest)

/-- Step 3c: fall back to a natural-language act instruction when no selector
filled the email. -/
def emailFallbackStep (env : LoginEnv) (attempt : Nat) (emailFilled : Bool) :
    Step Unit :=
  if emailFilled then stepPure ()
  else
    stepBind (stepEmit (LoginEvent.actInstruction emailFallbackInstruction))
      (fun _ => stepOf (env.emailFallbackActOutcome attempt))

/-- Step 4: act to submit the email. -/
def continueStep (env : LoginEnv) (attempt : Nat) : Step Unit :=
  stepBind (stepEmit (LoginEvent.actInstruction continueInstruction))
    (fun _ => stepOf (env.continueActOutcome attempt))

/-- Steps 5 and 6: observe the password field.  When missing, classify and
return early; otherwise fill the password via the structural locator and act
to submit the form. -/
def passwordStep (env : LoginEnv) (credentials : GrammarlyCredentials)
    (attempt : Nat) : Step PreOutcome :=
  stepBind (stepEmit (LoginEvent.observe passwordFieldQuery)) (fun _ =>
    stepBind (stepOf (env.passwordObserve attempt)) (fun l =>
      if l.isEmpty then
        stepBind (detectStep env attempt) (fun f =>
          match f.error with
          | some _ => stepPure (PreOutcome.returned (mkFailureResult f))
          | none =>
            stepPure (PreOutcome.returned
              { success := false, error := some "Password field not found" }))
      else
        stepBind
          (stepEmit (LoginEvent.locatorFill passwordSelector credentials.password))
          (fun _ =>
            stepBind (stepOf (env.passwordFillOutcome attempt)) (fun _ =>
              stepBind (stepEmit (LoginEvent.actInstruction submitInstruction))
                (fun _ =>
                  stepBind (stepOf (env.submitActOutcome attempt))
                    (fun _ => stepPure PreOutcome.proceed))))))

/-- The pre-verification half of one login attempt, in source order. -/
def loginPreSubmit (env : LoginEnv) (credentials : GrammarlyCredentials)
    (attempt : Nat) : Step PreOutcome :=
  stepBind (navStep env attempt) (fun _ =>
    stepBind (emailButtonStep env attempt) (fun _ =>
      stepBind (emailFieldObserveStep env attempt) (fun _ =>
        stepBind (emailFillLoop env credentials attempt 0 emailSelectors)
          (fun emailFilled =>
            stepBind (emailFallbackStep env attempt emailFilled) (fun _ =>
              stepBind (continueStep env attempt) (fun _ =>
                passwordStep env credentials attempt))))))

/-- Step 7: verify via checkGrammarlyAuthStatus; on success return; on failure
classify, returning a terminal result for the three non-retryable flags and a
retryable outcome otherwise. -/
def loginVerify (env : LoginEnv) (attempt : Nat) : Step AttemptStep :=
  stepBind (stepEmit LoginEvent.authCheck) (fun _ =>
    stepBind (stepOf (env.authStatus attempt)) (fun st =>
      if st.loggedIn then
        stepPure (AttemptStep.returned { success := true })
      else
        stepBind (detectStep env attempt) (fun f =>
          if f.invalidCredentials || f.captchaDetected || f.rateLimited then
            stepPure (AttemptStep.returned (mkFailureResult f))
          else
            stepPure AttemptStep.authFailedRetryable)))

/-- One full attempt body (the try block of the retry loop). -/
def loginAttemptBody (env : LoginEnv) (credentials : GrammarlyCredentials)
    (attempt : Nat) : Step AttemptStep :=
  stepBind (loginPreSubmit env credentials attempt) (fun pre =>
    match pre with
    | PreOutcome.returned r => stepPure (AttemptStep.returned r)
    | PreOutcome.proceed => loginVerify env attempt)

/-- The retry loop of attemptGrammarlyLogin.  fuel is the number of remaining
loop iterations (maxRetries + 1 - attempt); an exception on the final attempt
returns its message, exhausting the loop on retryables returns the fixed
failure message. -/
def loginLoop (env : LoginEnv) (credentials : GrammarlyCredentials)
    (maxRetries : Nat) : Nat → Nat → LoginAttemptResult × List LoginEvent
  | _, 0 =>
    ({ success := false, error := some "Login failed after all retry attempts" },
      [])
  | attempt, fuel + 1 =>
    match (loginAttemptBody env credentials attempt).2 with
    | Except.ok (AttemptStep.returned r) =>
      (r, (loginAttemptBody env credentials attempt).1)
    | Except.ok AttemptStep.authFailedRetryable =>
      let next := loginLoop env credentials maxRetries (attempt + 1) fuel
      (next.1, (loginAttemptBody env credentials attempt).1 ++ next.2)
    | Except.error msg =>
      if maxRetries ≤ attempt then
        ({ success := false, error := some msg },
          (loginAttemptBody env credentials attempt).1)
      else
        let next := loginLoop env credentials maxRetries (attempt + 1) fuel
        (next.1, (loginAttemptBody env credentials attempt).1 ++ next.2)

/-- Embedding of attemptGrammarlyLogin: fails fast without a page, otherwise
runs the retry loop for maxRetries + 1 attempts.  Returns the final result
together with the full event trace. -/
def attemptGrammarlyLogin (env : LoginEnv) (credentials : GrammarlyCredentials)
    (maxRetries : Nat) : LoginAttemptResult × List LoginEvent :=
  if env.hasPage then
    loginLoop env credentials maxRetries 0 (maxRetries + 1)
  else
    ({ success := false, error := some "No page available in Stagehand context" },
      [])

/-- Count of auth-status verification calls in a trace. -/
def countAuthChecks (tr : List LoginEvent) : Nat :=
  tr.countP (fun e => decide (e = LoginEvent.authCheck))

/-- Modelled from the spec: chooseClaudeModel from src/llm/claudeClient.ts is
absent from the source snapshot (only its unit tests are present).  Per spec
section 6, text over 12000 characters or more than 8 iterations selects the
higher-capability tier (opus), else the standard tier (sonnet). -/
inductive ClaudeModel where
  | sonnet
  | opus
deriving DecidableEq

/-- Modelled from the spec: the pure model-tier selector, standard tier iff
textLength is at most 12000 and iterations at most 8. -/
def chooseClaudeModel (textLength iterations : Nat) : ClaudeModel :=
  if textLength > 12000 || iterations > 8 then ClaudeModel.opus
  else ClaudeModel.sonnet

/-- Modelled from the spec: runStagehandGrammarlyTask (grammarlyTask.ts) is
absent from the source snapshot; per spec section 4.4 the input text is
truncated to a fixed maximum of 8000 characters before any UI interaction. -/
def MAX_TEXT_LENGTH : Nat := 8000

/-- A direct content-editable fill operation: selector plus filled value. -/
structure EditorFill where
  selector : String
  value : List Char
deriving DecidableEq

/-- Modelled from the spec: the single direct fill that injects the (possibly
truncated) text into the editor through the content-editable locator, never
through a natural-language instruction. -/
def editorFillFor (text : List Char) : EditorFill :=
  { selector := "[contenteditable=\"true\"]"
    value := text.take MAX_TEXT_LENGTH }

/-- Extraction result shape of GrammarlyExtractSchema. -/
structure GrammarlyExtractResult where
  aiDetectionPercent : Option Rat
  plagiarismPercent : Option Rat
  overallScore : Option Rat
  notes : String
deriving DecidableEq

/-- Modelled from the spec: the note appended when the fallback extraction
succeeds, indicating partial extraction occurred. -/
def fallbackNote : String :=
  " (partial extraction after primary extraction failure)"

/-- Modelled from the spec: the extraction phase of runStagehandGrammarlyTask
(grammarlyTask.ts is absent from the source snapshot).  Per spec section 4.4:
on primary failure exactly one fallback extraction runs; a fallback success is
returned with its notes annotated; if the fallback also fails the original
error propagates.  The second component counts extraction attempts issued. -/
def extractScores
    (primary fallback : Except String GrammarlyExtractResult) :
    Except String GrammarlyExtractResult × Nat :=
  match primary with
  | Except.ok r => (Except.ok r, 1)
  | Except.error originalError =>
    match fallback with
    | Except.ok r =>
      (Except.ok { r with notes := r.notes ++ fallbackNote }, 2)
    | Except.error _ => (Except.error originalError, 2)

/-- Per-event discipline invariant for the login trace: every
natural-language act instruction is one of the three fixed constants, and
every locator fill is either an email-selector fill of the username or the
password-selector fill of the password. -/
def LoginEventOK (credentials : GrammarlyCredentials) : LoginEvent → Prop
  | LoginEvent.actInstruction s =>
    s = emailFallbackInstruction ∨ s = continueInstruction ∨
      s = submitInstruction
  | LoginEvent.locatorFill sel v =>
    (sel ∈ emailSelectors ∧ v = credentials.username) ∨
      (sel = passwordSelector ∧ v = credentials.password)
  | _ => True

/-- Concrete credentials for login scenarios. -/
def credsW : GrammarlyCredentials :=
  { username := "user", password := "pw" }

/-- Adversarial credentials whose password coincides with the fixed submit
instruction string. -/
def credsLeak : GrammarlyCredentials :=
  { username := "user", password := submitInstruction }

/-- Login environment for a straight-line successful attempt. -/
def envHappy : LoginEnv :=
  { hasPage := true
    urlAt := fun _ => "https://www.grammarly.com/signin"
    gotoOutcome := fun _ => Except.ok ()
    emailButtonObserve := fun _ => Except.ok []
    emailButtonActOutcome := fun _ => Except.ok ()
    emailFieldObserve := fun _ => Except.ok [{ description := "Email input" }]
    emailSelectorOutcome := fun _ _ => SelectorStep.fillOk
    emailFallbackActOutcome := fun _ => Except.ok ()
    continueActOutcome := fun _ => Except.ok ()
    passwordObserve := fun _ => Except.ok [{ description := "Password input" }]
    passwordFillOutcome := fun _ => Except.ok ()
    submitActOutcome := fun _ => Except.ok ()
    authStatus := fun _ =>
      Except.ok { loggedIn := true, currentUrl := "https://app.grammarly.com" }
    failureObserve := fun _ => Except.ok [] }

/-- Login environment where verification fails and the classifier sees a
rate-limit message: a terminal, non-retryable failure. -/
def envTerm : LoginEnv :=
  { envHappy with
    authStatus := fun _ =>
      Except.ok { loggedIn := false
                  currentUrl := "https://www.grammarly.com/signin" }
    failureObserve := fun _ =>
      Except.ok [{ description := "Too many login attempts, try again later" }] }

/-- Login environment whose navigation throws on every attempt. -/
def envThrow : LoginEnv :=
  { envHappy with
    urlAt := fun _ => "https://example.com"
    gotoOutcome := fun _ => Except.error "boom" }

/-- Login environment where every attempt completes but verification fails
with no classification: an unclassified retryable failure each time. -/
def envRetryable : LoginEnv :=
  { envHappy with
    authStatus := fun _ =>
      Except.ok { loggedIn := false
                  currentUrl := "https://www.grammarly.com/signin" } }

/-- Concrete scores with both percent fields unavailable. -/
def scoresBothNone : GrammarlyScores :=
  { aiDetectionPercent := none, plagiarismPercent := none, notes := "" }

/-- Concrete scores meeting the 10 / 5 thresholds. -/
def scoresGood : GrammarlyScores :=
  { aiDetectionPercent := some 8, plagiarismPercent := some 2, notes := "" }

/-- Concrete optimization oracle for the spec scenario: baseline scores fail
the 10 / 5 thresholds, iteration 1 scores 8 / 2 meet them. -/
def envOpt : OptimizationEnv :=
  { iterScores := fun i =>
      if i = 0 then
        { aiDetectionPercent := some 15, plagiarismPercent := some 3, notes := "" }
      else
        { aiDetectionPercent := some 8, plagiarismPercent := some 2, notes := "" }
    rewrittenText := fun _ => "rewritten"
    rewriteReasoning := fun _ => "reasoning"
    analysisNotes := "analysis"
    summaryNotes := "summary" }

/-- Concrete tool input for the optimize scenario with a budget of 5. -/
def inputOpt : GrammarlyOptimizeInput :=
  { text := "original"
    mode := GrammarlyOptimizeMode.optimize
    max_ai_percent := 10
    max_plagiarism_percent := 5
    max_iterations := 5 }

/-- Concrete fallback extraction result for the claim C5 witness. -/
def sampleExtract : GrammarlyExtractResult :=
  { aiDetectionPercent := some 10
    plagiarismPercent := some 2
    overallScore := none
    notes := "Fallback extraction" }

/-- Claim C1: thresholdsMet returns true only if at least one percent field
is non-null and every non-null field is at most its configured maximum; in
particular, with both fields null it returns false. -/
theorem thresholdsMet_conservative (s : GrammarlyScores)
    (maxAi maxPlagiarism : Rat) :
    (thresholdsMet s maxAi maxPlagiarism = true →
      (s.aiDetectionPercent ≠ none ∨ s.plagiarismPercent ≠ none) ∧
      (∀ v, s.aiDetectionPercent = some v → v ≤ maxAi) ∧
      (∀ v, s.plagiarismPercent = some v → v ≤ maxPlagiarism)) ∧
    (s.aiDetectionPercent = none → s.plagiarismPercent = none →
      thresholdsMet s maxAi maxPlagiarism = false) := by
  rcases s with ⟨ai, plagiarism, notesField⟩
  cases ai <;> cases plagiarism <;>
    simp_all [thresholdsMet]

/-- Witness for claim C1 at concrete scores. -/
theorem thresholdsMet_conservative_witness :
    thresholdsMet scoresBothNone 10 5 = false ∧
    (∀ v, scoresGood.aiDetectionPercent = some v → v ≤ 10) :=
  ⟨(thresholdsMet_conservative scoresBothNone 10 5).2 rfl rfl,
    ((thresholdsMet_conservative scoresGood 10 5).1
      (by norm_num [thresholdsMet, scoresGood])).2.1⟩

/-- When the loop reaches iteration k (every earlier iteration failed the
thresholds) and iteration k meets them, the loop stops there with the
expected counters and history growth. -/
theorem optimizeFrom_first_success (env : OptimizationEnv)
    (maxAi maxPlagiarism : Rat) :
    ∀ (fuel start k : Nat) (st : LoopState),
      start ≤ k → k < start + fuel →
      (∀ j, start ≤ j → j < k →
        thresholdsMet (env.iterScores j) maxAi maxPlagiarism = false) →
      thresholdsMet (env.iterScores k) maxAi maxPlagiarism = true →
      (optimizeFrom env maxAi maxPlagiarism start fuel st).iterationsUsed = k ∧
      (optimizeFrom env maxAi maxPlagiarism start fuel st).reachedThresholds = true ∧
      (optimizeFrom env maxAi maxPlagiarism start fuel st).history.length =
        st.history.length + (k + 1 - start) := by
  intro fuel
  induction fuel with
  | zero =>
    intro start k st h1 h2 _ _
    exfalso
    omega
  | succ fuel ih =>
    intro start k st h1 h2 h3 h4
    by_cases hk : start = k
    · subst hk
      simp [optimizeFrom, h4]
    · have hlt : start < k := lt_of_le_of_ne h1 hk
      have hfail : thresholdsMet (env.iterScores start) maxAi maxPlagiarism = false :=
        h3 start le_rfl hlt
      have step := ih (start + 1) k
        { currentText := env.rewrittenText start
          lastScores := env.iterScores start
          iterationsUsed := start
          reachedThresholds := false
          history := st.history ++
            [{ iteration := start
               ai_detection_percent := (env.iterScores start).aiDetectionPercent
               plagiarism_percent := (env.iterScores start).plagiarismPercent
               note := env.rewriteReasoning start }] }
        (by omega) (by omega) (fun j hj1 hj2 => h3 j (by omega) hj2) h4
      simp [optimizeFrom, hfail]
      refine ⟨step.1, step.2.1, ?_⟩
      have hlen := step.2.2
      simp only [List.length_append, List.length_cons, List.length_nil] at hlen
      omega

/-- Claim C2: in optimize mode, if every iteration before k fails the
thresholds and iteration k (within the budget) meets them, the loop stops at
k with iterations_used = k, thresholds_met true, and k + 1 history entries. -/
theorem optimize_stops_at_first_success (env : OptimizationEnv)
    (input : GrammarlyOptimizeInput) (k : Nat)
    (hmode : input.mode = GrammarlyOptimizeMode.optimize)
    (hk1 : 1 ≤ k) (hk2 : k ≤ input.max_iterations)
    (hfail : ∀ j, 1 ≤ j → j < k →
      thresholdsMet (env.iterScores j)
        input.max_ai_percent input.max_plagiarism_percent = false)
    (hmet : thresholdsMet (env.iterScores k)
      input.max_ai_percent input.max_plagiarism_percent = true) :
    (runGrammarlyOptimization env input).iterations_used = k ∧
    (runGrammarlyOptimization env input).thresholds_met = true ∧
    (runGrammarlyOptimization env input).history.length = k + 1 := by
  have h := optimizeFrom_first_success env
    input.max_ai_percent input.max_plagiarism_percent
    input.max_iterations 1 k
    { currentText := input.text
      lastScores := env.iterScores 0
      iterationsUsed := 0
      reachedThresholds := false
      history :=
        [{ iteration := 0
           ai_detection_percent := (env.iterScores 0).aiDetectionPercent
           plagiarism_percent := (env.iterScores 0).plagiarismPercent
           note := "Baseline Grammarly scores on original text (iteration 0)." }] }
    hk1 (by omega) hfail hmet
  simp only [runGrammarlyOptimization, hmode]
  refine ⟨h.1, h.2.1, ?_⟩
  have := h.2.2
  simp only [List.length_cons, List.length_nil] at this
  omega

/-- Witness for claim C2: the spec end-to-end scenario, stopping after
iteration 1 of 5 with history length 2. -/
theorem optimize_stops_at_first_success_witness :
    (runGrammarlyOptimization envOpt inputOpt).iterations_used = 1 ∧
    (runGrammarlyOptimization envOpt inputOpt).thresholds_met = true ∧
    (runGrammarlyOptimization envOpt inputOpt).history.length = 2 :=
  optimize_stops_at_first_success envOpt inputOpt 1 rfl le_rfl
    (by norm_num [inputOpt])
    (fun j hj1 hj2 => absurd hj1 (by omega))
    (by norm_num [envOpt, inputOpt, thresholdsMet])

/-- Claim C9: the teardown wrapper never changes the main flow outcome: the
teardown runs in a finally-equivalent block whose own failures are swallowed,
so the result or error of the main flow always survives unchanged. -/
theorem teardown_preserves_outcome
    (mainOutcome : Except String GrammarlyOptimizeResult)
    (sessionId : Option String)
    (deleteSession : String → Except String Unit) :
    runOptimizationWithTeardown mainOutcome sessionId deleteSession =
      mainOutcome := by
  cases sessionId with
  | none => rfl
  | some sid =>
    cases h : deleteSession sid with
    | ok u =>
      simp [runOptimizationWithTeardown, jsTryFinally, closeSessionBlock, h]
    | error e =>
      simp [runOptimizationWithTeardown, jsTryFinally, closeSessionBlock, h]

/-- Claim C10: in score_only and analyze modes the returned final_text is the
caller input text, character for character; no rewrite happens. -/
theorem passive_modes_preserve_text (env : OptimizationEnv)
    (input : GrammarlyOptimizeInput)
    (h : input.mode = GrammarlyOptimizeMode.score_only ∨
      input.mode = GrammarlyOptimizeMode.analyze) :
    (runGrammarlyOptimization env input).final_text = input.text := by
  rcases h with h | h <;> simp [runGrammarlyOptimization, h]

/-- Witness for claim C10 at a concrete score_only input. -/
theorem passive_modes_preserve_text_witness :
    (runGrammarlyOptimization envOpt
      { text := "hello"
        mode := GrammarlyOptimizeMode.score_only
        max_ai_percent := 10
        max_plagiarism_percent := 5
        max_iterations := 5 }).final_text = "hello" :=
  passive_modes_preserve_text envOpt _ (Or.inl rfl)

/-- Claim C7: the model tier is the standard one exactly when the text length
is at most 12000 and the iteration count at most 8, with the stated boundary
behavior. -/
theorem chooseClaudeModel_spec :
    (∀ textLength iterations,
      chooseClaudeModel textLength iterations = ClaudeModel.sonnet ↔
        textLength ≤ 12000 ∧ iterations ≤ 8) ∧
    chooseClaudeModel 12000 8 = ClaudeModel.sonnet ∧
    (∀ iterations, chooseClaudeModel 12001 iterations = ClaudeModel.opus) ∧
    (∀ textLength, chooseClaudeModel textLength 9 = ClaudeModel.opus) := by
  refine ⟨?_, by simp [chooseClaudeModel], ?_, ?_⟩
  · intro tl it
    by_cases h : tl > 12000 || it > 8
    · simp only [chooseClaudeModel, h, if_true]
      simp at h
      constructor
      · intro hc
        exact absurd hc (by simp)
      · intro hc
        omega
    · simp only [chooseClaudeModel, h, if_false]
      simp at h
      simp
      omega
  · intro it
    simp [chooseClaudeModel]
  · intro tl
    simp [chooseClaudeModel]

/-- Witness for claim C7 at the boundary inputs. -/
theorem chooseClaudeModel_spec_witness :
    chooseClaudeModel 12000 8 = ClaudeModel.sonnet ∧
    chooseClaudeModel 5000 9 = ClaudeModel.opus :=
  ⟨chooseClaudeModel_spec.2.1, chooseClaudeModel_spec.2.2.2 5000⟩

/-- Claim C6: the value injected into the content-editable editor is the
first 8000 characters when the input is longer, and the input verbatim when
it fits. -/
theorem editorFill_truncation (text : List Char) :
    (MAX_TEXT_LENGTH < text.length →
      (editorFillFor text).value = text.take MAX_TEXT_LENGTH ∧
      (editorFillFor text).value.length = MAX_TEXT_LENGTH) ∧
    (text.length ≤ MAX_TEXT_LENGTH → (editorFillFor text).value = text) := by
  constructor
  · intro h
    refine ⟨rfl, ?_⟩
    simp [editorFillFor, List.length_take]
    omega
  · intro h
    simp [editorFillFor, List.take_of_length_le h]

/-- Witness for claim C6: a 10000-character input is cut to 8000 characters,
a short input is filled verbatim. -/
theorem editorFill_truncation_witness :
    (editorFillFor (List.replicate 10000 'a')).value =
      List.replicate 8000 'a' ∧
    (editorFillFor ['h', 'i']).value = ['h', 'i'] := by
  constructor
  · have h := (editorFill_truncation (List.replicate 10000 'a')).1
      (by simp only [MAX_TEXT_LENGTH, List.length_replicate]; omega)
    rw [h.1, List.take_replicate]
    congr 1
  · exact (editorFill_truncation ['h', 'i']).2
      (by simp only [MAX_TEXT_LENGTH, List.length_cons, List.length_nil]; omega)

/-- Claim C5: when the primary extraction fails, exactly one fallback runs;
a fallback success is returned with annotated notes, and a fallback failure
propagates the original error. -/
theorem extractScores_fallback_policy
    (primary fallback : Except String GrammarlyExtractResult) (e : String)
    (hp : primary = Except.error e) :
    (extractScores primary fallback).2 = 2 ∧
    (∀ r, fallback = Except.ok r →
      (extractScores primary fallback).1 =
        Except.ok { r with notes := r.notes ++ fallbackNote }) ∧
    (∀ e2, fallback = Except.error e2 →
      (extractScores primary fallback).1 = Except.error e) := by
  subst hp
  refine ⟨?_, ?_, ?_⟩
  · cases fallback <;> rfl
  · intro r hr
    subst hr
    rfl
  · intro e2 he2
    subst he2
    rfl

/-- Witness for claim C5 at a concrete failed primary extraction. -/
theorem extractScores_fallback_policy_witness :
    (extractScores (Except.error "Primary extraction failed")
      (Except.ok sampleExtract)).2 = 2 ∧
    (extractScores (Except.error "Primary extraction failed")
      (Except.ok sampleExtract)).1 =
      Except.ok { sampleExtract with notes := sampleExtract.notes ++ fallbackNote } :=
  ⟨(extractScores_fallback_policy (Except.error "Primary extraction failed")
      (Except.ok sampleExtract) "Primary extraction failed" rfl).1,
    (extractScores_fallback_policy (Except.error "Primary extraction failed")
      (Except.ok sampleExtract) "Primary extraction failed" rfl).2.1
      sampleExtract rfl⟩

/-- Sequencing preserves any per-event predicate over the recorded trace. -/
theorem stepBind_forall {α β : Type} {P : LoginEvent → Prop} (s : Step α)
    (f : α → Step β)
    (hs : ∀ e, e ∈ s.1 → P e) (hf : ∀ a, ∀ e, e ∈ (f a).1 → P e) :
    ∀ e, e ∈ (stepBind s f).1 → P e := by
  intro e he
  unfold stepBind at he
  cases hx : s.2 with
  | error msg =>
    rw [hx] at he
    exact hs e he
  | ok a =>
    rw [hx] at he
    have he' : e ∈ s.1 ++ (f a).1 := he
    rcases List.mem_append.mp he' with h | h
    · exact hs e h
    · exact hf a e h

/-- stepPure records no events. -/
theorem stepPure_forall {α : Type} {P : LoginEvent → Prop} (a : α) :
    ∀ e, e ∈ (stepPure a).1 → P e := by
  intro e he
  simp [stepPure] at he

/-- stepEmit records exactly its event. -/
theorem stepEmit_forall {P : LoginEvent → Prop} (ev : LoginEvent) (h : P ev) :
    ∀ e, e ∈ (stepEmit ev).1 → P e := by
  intro e he
  simp [stepEmit] at he
  rw [he]
  exact h

/-- stepOf records no events. -/
theorem stepOf_forall {α : Type} {P : LoginEvent → Prop}
    (x : Except String α) : ∀ e, e ∈ (stepOf x).1 → P e := by
  intro e he
  simp [stepOf] at he

/-- The navigation step only records goto events. -/
theorem navStep_forall (P : LoginEvent → Prop) (env : LoginEnv)
    (attempt : Nat) (hgoto : ∀ u, P (LoginEvent.goto u)) :
    ∀ e, e ∈ (navStep env attempt).1 → P e := by
  unfold navStep
  cases needsNavigation (env.urlAt attempt)
  · exact stepPure_forall _
  · exact stepBind_forall _ _ (stepEmit_forall _ (hgoto _))
      (fun _ => stepOf_forall _)

/-- The email-button step only records an observe and possibly an act on an
observed element. -/
theorem emailButtonStep_forall (P : LoginEvent → Prop) (env : LoginEnv)
    (attempt : Nat) (hobs : ∀ q, P (LoginEvent.observe q))
    (hact : ∀ el, P (LoginEvent.actElement el)) :
    ∀ e, e ∈ (emailButtonStep env attempt).1 → P e := by
  unfold emailButtonStep
  refine stepBind_forall _ _ (stepEmit_forall _ (hobs _)) ?_
  intro u
  refine stepBind_forall _ _ (stepOf_forall _) ?_
  intro l
  cases l.head? with
  | none => exact stepPure_forall _
  | some el =>
    exact stepBind_forall _ _ (stepEmit_forall _ (hact _))
      (fun _ => stepOf_forall _)

/-- The email-field observation step only records an observe event. -/
theorem emailFieldObserveStep_forall (P : LoginEvent → Prop) (env : LoginEnv)
    (attempt : Nat) (hobs : ∀ q, P (LoginEvent.observe q)) :
    ∀ e, e ∈ (emailFieldObserveStep env attempt).1 → P e := by
  unfold emailFieldObserveStep
  refine stepBind_forall _ _ (stepEmit_forall _ (hobs _)) ?_
  intro u
  exact stepBind_forall _ _ (stepOf_forall _) (fun _ => stepPure_forall _)

/-- The email-fill loop only records username fills on selectors of its
candidate list. -/
theorem emailFillLoop_forall (P : LoginEvent → Prop) (env : LoginEnv)
    (credentials : GrammarlyCredentials) (attempt : Nat) :
    ∀ (sels : List String) (idx : Nat),
      (∀ sel, sel ∈ sels → P (LoginEvent.locatorFill sel credentials.username)) →
      ∀ e, e ∈ (emailFillLoop env credentials attempt idx sels).1 → P e := by
  intro sels
  induction sels with
  | nil =>
    intro idx _
    simp only [emailFillLoop]
    exact stepPure_forall _
  | cons sel rest ihr =>
    intro idx hsel
    simp only [emailFillLoop]
    cases env.emailSelectorOutcome attempt idx with
    | throws =>
      exact ihr (idx + 1) (fun s hs => hsel s (List.mem_cons_of_mem _ hs))
    | notVisible =>
      exact ihr (idx + 1) (fun s hs => hsel s (List.mem_cons_of_mem _ hs))
    | fillOk =>
      exact stepBind_forall _ _
        (stepEmit_forall _ (hsel sel (List.mem_cons_self _ _)))
        (fun _ => stepPure_forall _)
    | fillThrows =>
      exact stepBind_forall _ _
        (stepEmit_forall _ (hsel sel (List.mem_cons_self _ _)))
        (fun _ => ihr (idx + 1) (fun s hs => hsel s (List.mem_cons_of_mem _ hs)))

/-- The email fallback step only records the fixed fallback instruction. -/
theorem emailFallbackStep_forall (P : LoginEvent → Prop) (env : LoginEnv)
    (attempt : Nat) (emailFilled : Bool)
    (hinstr : P (LoginEvent.actInstruction emailFallbackInstruction)) :
    ∀ e, e ∈ (emailFallbackStep env attempt emailFilled).1 → P e := by
  unfold emailFallbackStep
  cases emailFilled
  · exact stepBind_forall _ _ (stepEmit_forall _ hinstr)
      (fun _ => stepOf_forall _)
  · exact stepPure_forall _

/-- The continue step only records the fixed continue instruction. -/
theorem continueStep_forall (P : LoginEvent → Prop) (env : LoginEnv)
    (attempt : Nat)
    (hinstr : P (LoginEvent.actInstruction continueInstruction)) :
    ∀ e, e ∈ (continueStep env attempt).1 → P e := by
  unfold continueStep
  exact stepBind_forall _ _ (stepEmit_forall _ hinstr)
    (fun _ => stepOf_forall _)

/-- detectLoginFailure records at most its single observe event. -/
theorem detectLoginFailure_trace (env : LoginEnv) (attempt : Nat) :
    (detectLoginFailure env attempt).1 = [] ∨
    (detectLoginFailure env attempt).1 = [LoginEvent.observe failureQuery] := by
  unfold detectLoginFailure
  cases env.hasPage
  · simp
  · cases env.failureObserve attempt with
    | error msg => simp
    | ok l => cases l <;> simp

/-- detectStep events satisfy any predicate that holds on observe events. -/
theorem detectStep_forall (P : LoginEvent → Prop) (env : LoginEnv)
    (attempt : Nat) (hobs : ∀ q, P (LoginEvent.observe q)) :
    ∀ e, e ∈ (detectStep env attempt).1 → P e := by
  intro e he
  have hd : (detectStep env attempt).1 = (detectLoginFailure env attempt).1 := rfl
  rw [hd] at he
  rcases detectLoginFailure_trace env attempt with h | h <;> rw [h] at he
  · simp at he
  · simp at he
    rw [he]
    exact hobs _

/-- The password step records an observe, possibly the classifier observe, or
the password fill and the fixed submit instruction. -/
theorem passwordStep_forall (P : LoginEvent → Prop) (env : LoginEnv)
    (credentials : GrammarlyCredentials) (attempt : Nat)
    (hobs : ∀ q, P (LoginEvent.observe q))
    (hfillPw : P (LoginEvent.locatorFill passwordSelector credentials.password))
    (hinstr : P (LoginEvent.actInstruction submitInstruction)) :
    ∀ e, e ∈ (passwordStep env credentials attempt).1 → P e := by
  unfold passwordStep
  refine stepBind_forall _ _ (stepEmit_forall _ (hobs _)) ?_
  intro u
  refine stepBind_forall _ _ (stepOf_forall _) ?_
  intro l
  by_cases hl : l.isEmpty = true
  · rw [if_pos hl]
    refine stepBind_forall _ _ (detectStep_forall P env attempt hobs) ?_
    intro f
    cases f.error with
    | some msg => exact stepPure_forall _
    | none => exact stepPure_forall _
  · rw [if_neg hl]
    exact stepBind_forall _ _ (stepEmit_forall _ hfillPw) (fun _ =>
      stepBind_forall _ _ (stepOf_forall _) (fun _ =>
        stepBind_forall _ _ (stepEmit_forall _ hinstr) (fun _ =>
          stepBind_forall _ _ (stepOf_forall _) (fun _ => stepPure_forall _))))

/-- Every event recorded by the pre-verification half of an attempt satisfies
a predicate holding on each kind of event it can record; in particular no
auth-status verification happens before submission. -/
theorem loginPreSubmit_forall (P : LoginEvent → Prop) (env : LoginEnv)
    (credentials : GrammarlyCredentials) (attempt : Nat)
    (hgoto : ∀ u, P (LoginEvent.goto u))
    (hobs : ∀ q, P (LoginEvent.observe q))
    (hact : ∀ el, P (LoginEvent.actElement el))
    (hfillEmail : ∀ sel, sel ∈ emailSelectors →
      P (LoginEvent.locatorFill sel credentials.username))
    (hfillPw : P (LoginEvent.locatorFill passwordSelector credentials.password))
    (hinstr1 : P (LoginEvent.actInstruction emailFallbackInstruction))
    (hinstr2 : P (LoginEvent.actInstruction continueInstruction))
    (hinstr3 : P (LoginEvent.actInstruction submitInstruction)) :
    ∀ e, e ∈ (loginPreSubmit env credentials attempt).1 → P e := by
  unfold loginPreSubmit
  refine stepBind_forall _ _ (navStep_forall P env attempt hgoto) ?_
  intro u1
  refine stepBind_forall _ _ (emailButtonStep_forall P env attempt hobs hact) ?_
  intro u2
  refine stepBind_forall _ _ (emailFieldObserveStep_forall P env attempt hobs) ?_
  intro u3
  refine stepBind_forall _ _
    (emailFillLoop_forall P env credentials attempt emailSelectors 0 hfillEmail) ?_
  intro emailFilled
  refine stepBind_forall _ _
    (emailFallbackStep_forall P env attempt emailFilled hinstr1) ?_
  intro u4
  refine stepBind_forall _ _ (continueStep_forall P env attempt hinstr2) ?_
  intro u5
  exact passwordStep_forall P env credentials attempt hobs hfillPw hinstr3

/-- Every event recorded by the verification half satisfies a predicate
holding on the auth check and on observe events. -/
theorem loginVerify_forall (P : LoginEvent → Prop) (env : LoginEnv)
    (attempt : Nat) (hauthck : P LoginEvent.authCheck)
    (hobs : ∀ q, P (LoginEvent.observe q)) :
    ∀ e, e ∈ (loginVerify env attempt).1 → P e := by
  unfold loginVerify
  refine stepBind_forall _ _ (stepEmit_forall _ hauthck) ?_
  intro u
  refine stepBind_forall _ _ (stepOf_forall _) ?_
  intro st
  by_cases hst : st.loggedIn = true
  · rw [if_pos hst]
    exact stepPure_forall _
  · rw [if_neg hst]
    refine stepBind_forall _ _ (detectStep_forall P env attempt hobs) ?_
    intro f
    by_cases hf : (f.invalidCredentials || f.captchaDetected || f.rateLimited) = true
    · rw [if_pos hf]
      exact stepPure_forall _
    · rw [if_neg hf]
      exact stepPure_forall _

/-- Trace discipline for a whole attempt body. -/
theorem loginAttemptBody_forall (P : LoginEvent → Prop) (env : LoginEnv)
    (credentials : GrammarlyCredentials) (attempt : Nat)
    (hgoto : ∀ u, P (LoginEvent.goto u))
    (hobs : ∀ q, P (LoginEvent.observe q))
    (hact : ∀ el, P (LoginEvent.actElement el))
    (hfillEmail : ∀ sel, sel ∈ emailSelectors →
      P (LoginEvent.locatorFill sel credentials.username))
    (hfillPw : P (LoginEvent.locatorFill passwordSelector credentials.password))
    (hinstr1 : P (LoginEvent.actInstruction emailFallbackInstruction))
    (hinstr2 : P (LoginEvent.actInstruction continueInstruction))
    (hinstr3 : P (LoginEvent.actInstruction submitInstruction))
    (hauthck : P LoginEvent.authCheck) :
    ∀ e, e ∈ (loginAttemptBody env credentials attempt).1 → P e := by
  unfold loginAttemptBody
  refine stepBind_forall _ _
    (loginPreSubmit_forall P env credentials attempt hgoto hobs hact
      hfillEmail hfillPw hinstr1 hinstr2 hinstr3) ?_
  intro pre
  cases pre with
  | returned r => exact stepPure_forall _
  | proceed => exact loginVerify_forall P env attempt hauthck hobs

/-- Trace discipline for the whole retry loop. -/
theorem loginLoop_forall (P : LoginEvent → Prop) (env : LoginEnv)
    (credentials : GrammarlyCredentials) (maxRetries : Nat)
    (hgoto : ∀ u, P (LoginEvent.goto u))
    (hobs : ∀ q, P (LoginEvent.observe q))
    (hact : ∀ el, P (LoginEvent.actElement el))
    (hfillEmail : ∀ sel, sel ∈ emailSelectors →
      P (LoginEvent.locatorFill sel credentials.username))
    (hfillPw : P (LoginEvent.locatorFill passwordSelector credentials.password))
    (hinstr1 : P (LoginEvent.actInstruction emailFallbackInstruction))
    (hinstr2 : P (LoginEvent.actInstruction continueInstruction))
    (hinstr3 : P (LoginEvent.actInstruction submitInstruction))
    (hauthck : P LoginEvent.authCheck) :
    ∀ (fuel attempt : Nat),
      ∀ e, e ∈ (loginLoop env credentials maxRetries attempt fuel).2 → P e := by
  intro fuel
  have hbody := fun attempt =>
    loginAttemptBody_forall P env credentials attempt hgoto hobs hact
      hfillEmail hfillPw hinstr1 hinstr2 hinstr3 hauthck
  induction fuel with
  | zero =>
    intro attempt e he
    simp [loginLoop] at he
  | succ fuel ih =>
    intro attempt e
    simp only [loginLoop]
    cases hx : (loginAttemptBody env credentials attempt).2 with
    | ok a =>
      cases a with
      | returned r =>
        intro he
        exact hbody attempt e he
      | authFailedRetryable =>
        intro he
        have he' : e ∈ (loginAttemptBody env credentials attempt).1 ++
            (loginLoop env credentials maxRetries (attempt + 1) fuel).2 := he
        rcases List.mem_append.mp he' with h | h
        · exact hbody attempt e h
        · exact ih (attempt + 1) e h
    | error msg =>
      intro he
      have he' : e ∈ (if maxRetries ≤ attempt then
          (({ success := false, error := some msg } : LoginAttemptResult),
            (loginAttemptBody env credentials attempt).1)
        else
          ((loginLoop env credentials maxRetries (attempt + 1) fuel).1,
            (loginAttemptBody env credentials attempt).1 ++
              (loginLoop env credentials maxRetries (attempt + 1) fuel).2)).2 := he
      by_cases hm : maxRetries ≤ attempt
      · rw [if_pos hm] at he'
        exact hbody attempt e he'
      · rw [if_neg hm] at he'
        have he'' : e ∈ (loginAttemptBody env credentials attempt).1 ++
            (loginLoop env credentials maxRetries (attempt + 1) fuel).2 := he'
        rcases List.mem_append.mp he'' with h | h
        · exact hbody attempt e h
        · exact ih (attempt + 1) e h

/-- Trace discipline for attemptGrammarlyLogin as a whole. -/
theorem attemptGrammarlyLogin_forall (P : LoginEvent → Prop) (env : LoginEnv)
    (credentials : GrammarlyCredentials) (maxRetries : Nat)
    (hgoto : ∀ u, P (LoginEvent.goto u))
    (hobs : ∀ q, P (LoginEvent.observe q))
    (hact : ∀ el, P (LoginEvent.actElement el))
    (hfillEmail : ∀ sel, sel ∈ emailSelectors →
      P (LoginEvent.locatorFill sel credentials.username))
    (hfillPw : P (LoginEvent.locatorFill passwordSelector credentials.password))
    (hinstr1 : P (LoginEvent.actInstruction emailFallbackInstruction))
    (hinstr2 : P (LoginEvent.actInstruction continueInstruction))
    (hinstr3 : P (LoginEvent.actInstruction submitInstruction))
    (hauthck : P LoginEvent.authCheck) :
    ∀ e, e ∈ (attemptGrammarlyLogin env credentials maxRetries).2 → P e := by
  unfold attemptGrammarlyLogin
  cases env.hasPage
  · intro e he
    simp at he
  · exact loginLoop_forall P env credentials maxRetries hgoto hobs hact
      hfillEmail hfillPw hinstr1 hinstr2 hinstr3 hauthck (maxRetries + 1) 0

/-- Claim C3 (amended): every natural-language instruction passed to the
automation act call during a login attempt is one of three fixed constant
strings that do not depend on the credentials, so the password is never
interpolated into an instruction; and when the password differs from the
username, the password value occurs only as the argument of the direct
password-selector locator fill. -/
theorem login_password_discipline (env : LoginEnv)
    (credentials : GrammarlyCredentials) (maxRetries : Nat)
    (hne : credentials.password ≠ credentials.username) :
    (∀ s, LoginEvent.actInstruction s ∈
        (attemptGrammarlyLogin env credentials maxRetries).2 →
      s = emailFallbackInstruction ∨ s = continueInstruction ∨
        s = submitInstruction) ∧
    (∀ sel v, LoginEvent.locatorFill sel v ∈
        (attemptGrammarlyLogin env credentials maxRetries).2 →
      v = credentials.password → sel = passwordSelector) := by
  have main := attemptGrammarlyLogin_forall (LoginEventOK credentials) env
    credentials maxRetries
    (fun u => trivial) (fun q => trivial) (fun el => trivial)
    (fun sel hs => Or.inl ⟨hs, rfl⟩) (Or.inr ⟨rfl, rfl⟩)
    (Or.inl rfl) (Or.inr (Or.inl rfl)) (Or.inr (Or.inr rfl)) trivial
  constructor
  · intro s hs
    exact main _ hs
  · intro sel v hmem hv
    have hok := main _ hmem
    rcases hok with ⟨hsel, hu⟩ | ⟨hsel, hp⟩
    · exact absurd (hv.symm.trans hu) hne
    · exact hsel

/-- Witness for claim C3 (amended): on a concrete successful login run the
password fill event occurs and the theorem applies. -/
theorem login_password_discipline_witness :
    credsW.password ≠ credsW.username ∧ passwordSelector = passwordSelector :=
  ⟨by decide,
    (login_password_discipline envHappy credsW 1 (by decide)).2
      passwordSelector credsW.password (by decide) rfl⟩

/-- Claim C3 counterexample: with a password that happens to equal the fixed
submit instruction, some act instruction issued during the login attempt
contains the password as a substring, refuting the literal universally
quantified substring claim. -/
theorem login_password_substring_counterexample :
    ((attemptGrammarlyLogin envHappy credsLeak 1).2).any
      (fun e =>
        match e with
        | LoginEvent.actInstruction s => strContains s credsLeak.password
        | _ => false) = true := by
  decide

/-- When the post-submission auth check reports not logged in and the
classifier returns one of the terminal flags, the verification half returns
the classified terminal result after exactly one auth check. -/
theorem loginVerify_terminal (env : LoginEnv) (attempt : Nat)
    (st : AuthStatus)
    (hauth : env.authStatus attempt = Except.ok st)
    (hst : st.loggedIn = false)
    (hterm : ((detectLoginFailure env attempt).2.invalidCredentials ||
      (detectLoginFailure env attempt).2.captchaDetected ||
      (detectLoginFailure env attempt).2.rateLimited) = true) :
    loginVerify env attempt =
      (LoginEvent.authCheck :: (detectLoginFailure env attempt).1,
        Except.ok (AttemptStep.returned
          (mkFailureResult (detectLoginFailure env attempt).2))) := by
  unfold loginVerify detectStep
  simp [stepBind, stepEmit, stepOf, stepPure, hauth, hst, hterm]

/-- Claim C4: a failed post-submission authentication check whose classified
failure carries any of the invalid-credential, CAPTCHA or rate-limit flags
ends attemptGrammarlyLogin immediately with that classified failed result:
the whole-run trace is the single attempt trace, no further attempt happens,
and exactly one auth verification is performed in total, for every retry
budget. -/
theorem login_terminal_failure_no_retry (env : LoginEnv)
    (credentials : GrammarlyCredentials) (maxRetries : Nat)
    (tr0 : List LoginEvent)
    (hpage : env.hasPage = true)
    (hpre : loginPreSubmit env credentials 0 =
      (tr0, Except.ok PreOutcome.proceed))
    (st : AuthStatus)
    (hauth : env.authStatus 0 = Except.ok st)
    (hst : st.loggedIn = false)
    (hterm : ((detectLoginFailure env 0).2.invalidCredentials ||
      (detectLoginFailure env 0).2.captchaDetected ||
      (detectLoginFailure env 0).2.rateLimited) = true) :
    attemptGrammarlyLogin env credentials maxRetries =
      (mkFailureResult (detectLoginFailure env 0).2,
        tr0 ++ (LoginEvent.authCheck :: (detectLoginFailure env 0).1)) ∧
    countAuthChecks (attemptGrammarlyLogin env credentials maxRetries).2 = 1 := by
  have hbody : loginAttemptBody env credentials 0 =
      (tr0 ++ (LoginEvent.authCheck :: (detectLoginFailure env 0).1),
        Except.ok (AttemptStep.returned
          (mkFailureResult (detectLoginFailure env 0).2))) := by
    unfold loginAttemptBody
    rw [hpre, loginVerify_terminal env 0 st hauth hst hterm]
    simp [stepBind]
  have hmain : attemptGrammarlyLogin env credentials maxRetries =
      (mkFailureResult (detectLoginFailure env 0).2,
        tr0 ++ (LoginEvent.authCheck :: (detectLoginFailure env 0).1)) := by
    unfold attemptGrammarlyLogin
    rw [hpage]
    simp only [if_true]
    simp only [loginLoop, hbody]
  refine ⟨hmain, ?_⟩
  rw [hmain]
  have htr0 : countAuthChecks tr0 = 0 := by
    unfold countAuthChecks
    rw [List.countP_eq_zero]
    intro a ha
    have hmem : a ∈ (loginPreSubmit env credentials 0).1 := by
      rw [hpre]
      exact ha
    have hne := loginPreSubmit_forall
      (fun e => e ≠ LoginEvent.authCheck) env credentials 0
      (fun u h => LoginEvent.noConfusion h)
      (fun q h => LoginEvent.noConfusion h)
      (fun el h => LoginEvent.noConfusion h)
      (fun sel _ h => LoginEvent.noConfusion h)
      (fun h => LoginEvent.noConfusion h)
      (fun h => LoginEvent.noConfusion h)
      (fun h => LoginEvent.noConfusion h)
      (fun h => LoginEvent.noConfusion h)
      a hmem
    simp only [decide_eq_true_eq]
    exact hne
  have hdet : countAuthChecks (detectLoginFailure env 0).1 = 0 := by
    rcases detectLoginFailure_trace env 0 with h | h <;>
      simp [countAuthChecks, h]
  unfold countAuthChecks at htr0 hdet ⊢
  rw [List.countP_append, List.countP_cons, htr0, hdet]
  simp

/-- Witness for claim C4: rate-limited classified failure with retry budget
2 still performs exactly one verification. -/
theorem login_terminal_failure_no_retry_witness :
    (attemptGrammarlyLogin envTerm credsW 2).1.rateLimited = true ∧
    countAuthChecks (attemptGrammarlyLogin envTerm credsW 2).2 = 1 := by
  have h := login_terminal_failure_no_retry envTerm credsW 2
    ((loginPreSubmit envTerm credsW 0).1) rfl rfl
    { loggedIn := false, currentUrl := "https://www.grammarly.com/signin" }
    rfl rfl (by decide)
  refine ⟨?_, h.2⟩
  rw [h.1]
  decide

/-- When every attempt of the loop ends in an unclassified retryable failure,
the loop runs out of fuel and produces the fixed exhaustion message. -/
theorem loginLoop_exhaustion (env : LoginEnv)
    (credentials : GrammarlyCredentials) (maxRetries : Nat)
    (hall : ∀ a, a ≤ maxRetries →
      (loginAttemptBody env credentials a).2 =
        Except.ok AttemptStep.authFailedRetryable) :
    ∀ (fuel attempt : Nat), attempt + fuel = maxRetries + 1 →
      (loginLoop env credentials maxRetries attempt fuel).1 =
        { success := false,
          error := some "Login failed after all retry attempts" } := by
  intro fuel
  induction fuel with
  | zero =>
    intro attempt _
    rfl
  | succ fuel ih =>
    intro attempt hsum
    have hbody := hall attempt (by omega)
    simp only [loginLoop, hbody]
    exact ih (attempt + 1) (by omega)

/-- Claim C8 (amended): when every login attempt completes its flow without
an exception and ends in an unclassified retryable failure, exhausting the
retry budget returns success false with the fixed exhaustion message; when
the final attempt instead throws, the thrown message is returned. -/
theorem login_exhaustion_message (env : LoginEnv)
    (credentials : GrammarlyCredentials) (maxRetries : Nat)
    (hpage : env.hasPage = true)
    (hall : ∀ a, a ≤ maxRetries →
      (loginAttemptBody env credentials a).2 =
        Except.ok AttemptStep.authFailedRetryable) :
    (attemptGrammarlyLogin env credentials maxRetries).1 =
      { success := false,
        error := some "Login failed after all retry attempts" } := by
  unfold attemptGrammarlyLogin
  rw [hpage]
  simp only [if_true]
  exact loginLoop_exhaustion env credentials maxRetries hall
    (maxRetries + 1) 0 (by omega)

/-- Witness for claim C8 (amended): every attempt retryable with budget 1
yields the fixed exhaustion message. -/
theorem login_exhaustion_message_witness :
    (attemptGrammarlyLogin envRetryable credsW 1).1 =
      { success := false,
        error := some "Login failed after all retry attempts" } :=
  login_exhaustion_message envRetryable credsW 1 rfl (fun _ _ => rfl)

/-- Claim C8 counterexample: a single attempt that throws exhausts the retry
budget with no success and no terminal classification, yet the returned
error is the thrown message, not the fixed exhaustion message. -/
theorem login_exhaustion_message_counterexample :
    (attemptGrammarlyLogin envThrow credsW 0).1.success = false ∧
    (attemptGrammarlyLogin envThrow credsW 0).1.invalidCredentials = false ∧
    (attemptGrammarlyLogin envThrow credsW 0).1.captchaDetected = false ∧
    (attemptGrammarlyLogin envThrow credsW 0).1.rateLimited = false ∧
    (attemptGrammarlyLogin envThrow credsW 0).1.error = some "boom" ∧
    (attemptGrammarlyLogin envThrow credsW 0).1.error ≠
      some "Login failed after all retry attempts" := by
  refine ⟨rfl, rfl, rfl, rfl, rfl, ?_⟩
  decide
